import Mathlib

/-!
Verification development for the CHNA/CRA dashboard (`app.js`).

The JavaScript source is shallowly embedded below: JS 64-bit floats are
modelled as rationals (`ℚ`) for the algebraic claims, and as an explicit
IEEE-style value type (`JSNum`, with NaN and signed infinities) for the
error-handling claim about non-finite propagation.  Stateful code
(`state.findings`, `state.transport`, ...) is modelled by explicit state
passing; DOM reads (`parseFloat(...)`, `document.getElementById`) are out
of scope, so each engine takes the parsed numeric values as arguments.
The regular-expression matchers (`findPercentNear`, `findAge6574Transport`)
are abstracted as per-page oracle functions `String → Option ℚ` yielding
the matched percentage, which is all that the claims about the scan fold
depend on.
-/

namespace ChnaCra

/-- `clamp(n, min, max)` from `app.js` line 10: `Math.max(min, Math.min(max, n))`. -/
def clamp (n lo hi : ℚ) : ℚ := max lo (min hi n)

/-- Integer variant of `clamp`, used where the JS code clamps already-rounded
integer scores (the operands are integers, so the float clamp coincides). -/
def clampInt (n lo hi : ℤ) : ℤ := max lo (min hi n)

/-- JS `Math.round` on a rational: `⌊x + 1/2⌋`, which is Mathlib's `round`
(JS rounds half-way cases toward +∞, exactly as `round` on `ℚ` does). -/
def jsRound (x : ℚ) : ℤ := round x

/-! ## Findings and the aggregator (`addFinding`, `app.js` lines 109–128) -/

/-- One entry of `state.findings`
(`{id,key,disparity,segment,magnitude,prominence,concentration,score,recommend,evidenceRef}`;
the JS `id` is the derived string `key + "__" + segment` and is represented
by the `(key, segment)` pair itself). -/
structure Finding where
  key : String
  disparity : String
  segment : String
  magnitude : ℚ
  prominence : ℕ
  concentration : ℚ
  score : ℤ
  recommend : String
  evidenceRef : String
deriving DecidableEq, Repr

/-- The mutation performed on an existing finding by `addFinding`
(lines 113–117): replace magnitude and evidence reference and raise
prominence to the max, but only when the incoming magnitude is strictly
greater than the stored one; otherwise leave the record unchanged. -/
def updateExisting (f : Finding) (magnitude : ℚ) (prominence : ℕ) (evidenceRef : String) : Finding :=
  if magnitude > f.magnitude then
    { f with magnitude := magnitude,
             prominence := max f.prominence prominence,
             evidenceRef := evidenceRef }
  else f

/-- The fresh record pushed by `addFinding` when no record with the same
identity exists (lines 120–127). -/
def mkFinding (key disparity segment : String) (magnitude : ℚ) (prominence : ℕ)
    (evidenceRef : String) : Finding :=
  { key := key, disparity := disparity, segment := segment, magnitude := magnitude,
    prominence := prominence, concentration := 0, score := 0, recommend := "",
    evidenceRef := evidenceRef }

/-- `addFinding(key, disparity, segment, magnitude, prominence, evidenceRef)`:
find the first record with identity `(key, segment)` and update it in place,
or append a fresh record at the end (lines 109–128). -/
def addFinding : List Finding → String → String → String → ℚ → ℕ → String → List Finding
  | [], key, disparity, segment, magnitude, prominence, evidenceRef =>
      [mkFinding key disparity segment magnitude prominence evidenceRef]
  | f :: rest, key, disparity, segment, magnitude, prominence, evidenceRef =>
      if f.key = key ∧ f.segment = segment then
        updateExisting f magnitude prominence evidenceRef :: rest
      else
        f :: addFinding rest key disparity segment magnitude prominence evidenceRef

/-- A submission for one identity: (magnitude, prominence, evidenceRef). -/
abbrev Submission := ℚ × ℕ × String

/-- Folding a stream of same-identity submissions into one record via the
`addFinding` update rule. -/
def runSubs (f : Finding) (subs : List Submission) : Finding :=
  subs.foldl (fun g s => updateExisting g s.1 s.2.1 s.2.2) f

/-- Running `addFinding` repeatedly for one fixed identity, starting from the
empty findings list (as `scanDoc` does for a single disparity/segment). -/
def runAddFinding (key disparity segment : String) (subs : List Submission) : List Finding :=
  subs.foldl (fun st s => addFinding st key disparity segment s.1 s.2.1 s.2.2) []

/-! ## Documents and the transportation-scalar side effects of `scanDoc`
(`app.js` lines 130–171; the scalar updates are lines 145–158) -/

/-- A parsed document: `{name, type, pages, textByPage[]}` (`app.js` line 30). -/
structure Document where
  name : String
  type : String
  pages : ℕ
  textByPage : List String
deriving DecidableEq, Repr

/-- `state.transport = {overall: null, age6574: null}` (`app.js` line 35). -/
structure TransportScalars where
  overall : Option ℚ
  age6574 : Option ℚ
deriving DecidableEq, Repr

/-- The initial transport-scalar state. -/
def initTransport : TransportScalars := { overall := none, age6574 := none }

/-- The transport-scalar side effects of scanning one page
(`app.js` lines 145–158): when the overall matcher fires, the overall
scalar is written only if it is still null (`if(state.transport.overall==null)`,
line 150); when the 65–74 matcher fires, the age scalar is overwritten
unconditionally (line 157).  The regex matchers `findPercentNear(t,"transportation")`
and `findAge6574Transport(t)` are abstracted as the oracle functions
`exOverall` and `exAge` from page text to the matched percentage. -/
def scanPageTransport (exOverall exAge : String → Option ℚ)
    (s : TransportScalars) (t : String) : TransportScalars :=
  let s1 :=
    match exOverall t with
    | some v => if s.overall = none then { s with overall := some v } else s
    | none => s
  match exAge t with
  | some v => { s1 with age6574 := some v }
  | none => s1

/-- `scanDoc(doc)` restricted to its transport-scalar side effects: the pages
of the document are scanned in order (`app.js` line 134). -/
def scanDocTransport (exOverall exAge : String → Option ℚ)
    (s : TransportScalars) (doc : Document) : TransportScalars :=
  doc.textByPage.foldl (scanPageTransport exOverall exAge) s

/-- `for(const d of state.docs){ scanDoc(d); }` (`app.js` line 955): all
documents are scanned in order. -/
def scanAllTransport (exOverall exAge : String → Option ℚ)
    (docs : List Document) : TransportScalars :=
  docs.foldl (scanDocTransport exOverall exAge) initTransport

/-- All page texts of a document batch, in reading order. -/
def allPages (docs : List Document) : List String :=
  docs.flatMap (·.textByPage)

/-- Modelled from the spec's words, for comparison with the code: "the value
of the latest successful match found in reading order across all documents".
(The last element of the successful matches, if any.) -/
def latestMatch (ex : String → Option ℚ) (docs : List Document) : Option ℚ :=
  ((allPages docs).filterMap ex).getLast?

/-- The value of the earliest successful match in reading order. -/
def earliestMatch (ex : String → Option ℚ) (docs : List Document) : Option ℚ :=
  ((allPages docs).filterMap ex).head?

/-! ## Materiality scorer (`computeMateriality`, `app.js` lines 332–366) -/

/-- First pass of `computeMateriality` (lines 334–345): concentration of a
non-"Overall" finding is `max(0, magnitude − overall magnitude)` against the
"Overall" finding with the same key, when one exists; "Overall" findings
(and keys without an "Overall" finding) get concentration 0. -/
def setConcentration (findings : List Finding) : List Finding :=
  findings.map fun f =>
    if f.segment ≠ "Overall" then
      match findings.find? (fun x => x.key = f.key ∧ x.segment = "Overall") with
      | some overall => { f with concentration := max 0 (f.magnitude - overall.magnitude) }
      | none => { f with concentration := 0 }
    else { f with concentration := 0 }

/-- The transportation amplification bonus (lines 350–354): when both scalars
are known and the overall one is positive, `clamp((amp-1)*8, 0, 10)` with
`amp = age6574 / overall`; otherwise 0. -/
def transportBonus (t : TransportScalars) : ℚ :=
  match t.overall, t.age6574 with
  | some o, some a => if o > 0 then clamp ((a / o - 1) * 8) 0 10 else 0
  | _, _ => 0

/-- Second pass of `computeMateriality` (lines 356–364): the composite score
and recommendation tag of one finding, given the transport bonus. -/
def scoreFinding (bonus : ℚ) (f : Finding) : Finding :=
  let magScore := clamp (f.magnitude / 30 * 60) 0 60
  let concScore := clamp (f.concentration / 15 * 25) 0 25
  let promScore := clamp ((f.prominence : ℚ) / 6 * 15) 0 15
  let base := jsRound (magScore + concScore + promScore)
  let score := if f.key = "transport" then clampInt (base + jsRound bonus) 0 100 else base
  { f with score := score,
           recommend := if score ≥ 70 then "Advance (high)"
                        else if score ≥ 55 then "Advance (moderate)" else "Defer/monitor" }

/-- Stable insertion of `a` into a list sorted descending by `score`:
`a` goes after every element with strictly greater score and before the
rest (so elements already in the list keep their relative order, as the
ECMAScript `Array.prototype.sort` is stable). -/
def insertDesc (score : α → ℤ) (a : α) : List α → List α
  | [] => [a]
  | b :: l => if score b > score a then b :: insertDesc score a l else a :: b :: l

/-- Stable descending sort by `score`, modelling `sort((a,b)=>b.score-a.score)`. -/
def sortDesc (score : α → ℤ) : List α → List α
  | [] => []
  | a :: l => insertDesc score a (sortDesc score l)

/-- `computeMateriality()` (lines 332–366) as a function of the findings list
and the transport scalars: set concentrations, score every finding (with the
transportation bonus added, rounded, for `key === "transport"`), then sort
descending by score (line 365). -/
def computeMateriality (findings : List Finding) (t : TransportScalars) : List Finding :=
  sortDesc Finding.score ((setConcentration findings).map (scoreFinding (transportBonus t)))

/-! ## Opportunity synthesizer (`buildOpportunities`, `app.js` lines 368–445)
and the tier gate (`tier3Unlocked`, lines 447–449) -/

/-- One entry of `state.opportunities`
(`{opp,kind,tests,criterion,strength,score,scope,checklist}`, `app.js` line 33). -/
structure Opportunity where
  opp : String
  kind : String
  tests : String
  criterion : String
  strength : String
  score : ℤ
  scope : String
  checklist : String
deriving DecidableEq, Repr

/-- `bestByKey`: the first finding in the list with the given key
(lines 369–372: `if(!bestByKey[f.key]) bestByKey[f.key]=f`). -/
def bestByKey (findings : List Finding) (key : String) : Option Finding :=
  findings.find? (fun f => f.key = key)

/-- `scoreOpportunity(eligibilityClarity, responsiveness, attributionStrength, docBurden)`
(lines 377–379): `Math.round(0.30*e + 0.30*r + 0.25*a + 0.15*(100-b))`. -/
def scoreOpportunity (eligibilityClarity responsiveness attributionStrength docBurden : ℚ) : ℤ :=
  jsRound (30/100 * eligibilityClarity + 30/100 * responsiveness
           + 25/100 * attributionStrength + 15/100 * (100 - docBurden))

/-- Strength tier from a score: `score>=75 ? "Strong" : (score>=60 ? "Moderate" : "Weak")`. -/
def strengthOf (score : ℤ) : String :=
  if score ≥ 75 then "Strong" else if score ≥ 60 then "Moderate" else "Weak"

/-- The fixed attribution heuristic (line 382). -/
def attribution : ℚ := 70

/-- The fixed scope-guidance text (line 383). -/
def scopeText : String :=
  "Prefer AA attribution: document beneficiary location (ZIP/tract/county) and service delivery within AA; if broader, document proportional benefit."

/-- `CRA_CRITERIA.nmt.criterion + " " + CRA_CRITERIA.nmt.cite` (lines 52–55, 396). -/
def nmtCriterion : String :=
  "Community development services / community support services targeted to low- or moderate-income (LMI) individuals — transportation to medical treatments. Qualifying Activities: 12 CFR 25.04(c)(3) Topic L (Community support services) — example: transportation to medical treatments for LMI individuals."

/-- `CRA_CRITERIA.food.criterion + " " + CRA_CRITERIA.food.cite` (lines 56–59, 415). -/
def foodCriterion : String :=
  "Community development services / community support services targeted to LMI individuals — food access support as a community service (when structured for LMI populations). Qualifying Activities: 12 CFR 25.04(c)(3) Topic L (Community support services) — community services for LMI individuals (structure matters)."

/-- `CRA_CRITERIA.care.criterion + " " + CRA_CRITERIA.care.cite` (lines 60–63, 434). -/
def careCriterion : String :=
  "Community development services targeted to LMI individuals — health services / community services that improve access (depending on structure and beneficiaries). Qualifying Activities: 12 CFR 25.04(c)(3) Topic L (Community support services) — health/community services for LMI individuals (structure matters)."

/-- The transportation (NEMT) opportunity (lines 386–402): always pushed;
responsiveness is the best transport finding's score, or the default 55 when
no transport finding exists (`bestByKey.transport || {score:55}`, line 387). -/
def transportOpportunity (findings : List Finding) : Opportunity :=
  let respInput : ℤ := match bestByKey findings "transport" with
    | some f => f.score
    | none => 55
  let responsiveness := clamp (respInput : ℚ) 0 100
  let score := scoreOpportunity 90 responsiveness attribution 35
  { opp := "Transportation-to-care (NEMT) — missed appointment mitigation",
    kind := "nmt",
    tests := "Service • Investment (as structured) • CD Loans (as structured)",
    criterion := nmtCriterion,
    strength := strengthOf score,
    score := score,
    scope := scopeText,
    checklist := "CHNA excerpt(s) with overall + age-band differential; target population definition (LMI and/or qualifying segments); service area map; vendor/partner agreement; invoices; ride logs; beneficiary counts; monitoring report cadence." }

/-- The food opportunity (lines 405–421), pushed only when a food finding exists. -/
def foodOpportunity (f : Finding) : Opportunity :=
  let score := scoreOpportunity 80 (clamp (f.score : ℚ) 0 100) attribution 45
  { opp := "Food access support — distribution / vouchers / meal supports",
    kind := "food",
    tests := "Investment • Service (depending on structure)",
    criterion := foodCriterion,
    strength := strengthOf score,
    score := score,
    scope := scopeText,
    checklist := "CHNA food measure; LMI targeting method; partner agreement; distribution logs; invoices; beneficiary counts; monitoring plan." }

/-- The access-to-care opportunity (lines 424–440), pushed only when an
access finding exists. -/
def careOpportunity (f : Finding) : Opportunity :=
  let score := scoreOpportunity 75 (clamp (f.score : ℚ) 0 100) attribution 50
  { opp := "Care navigation / referral infrastructure — access enablement",
    kind := "care",
    tests := "Service • Investment (as structured)",
    criterion := careCriterion,
    strength := strengthOf score,
    score := score,
    scope := scopeText,
    checklist := "CHNA access barrier evidence; workflow description; staffing records; referral counts; LMI targeting; monitoring plan." }

/-- `buildOpportunities()` (lines 368–445) as a function of the findings list:
the transportation opportunity unconditionally, the food and access ones only
when a finding with that key exists, sorted descending by score (line 442). -/
def buildOpportunities (findings : List Finding) : List Opportunity :=
  let opps :=
    [transportOpportunity findings]
    ++ (match bestByKey findings "food" with
        | some f => [foodOpportunity f]
        | none => [])
    ++ (match bestByKey findings "access" with
        | some f => [careOpportunity f]
        | none => [])
  sortDesc Opportunity.score opps

/-- `tier3Unlocked()` (lines 447–449): `state.opportunities.some(o=>o.score>=60)`. -/
def tier3Unlocked (opportunities : List Opportunity) : Bool :=
  opportunities.any (fun o => o.score ≥ 60)

/-! ## Documentation gap evaluator (`evalDocForElements`, `app.js` lines 211–257) -/

/-- Is `pat` a leading block of `text`? (character-by-character). -/
def leadsChars : List Char → List Char → Bool
  | [], _ => true
  | _ :: _, [] => false
  | a :: pa, b :: tb => a = b && leadsChars pa tb

/-- Does `text` contain `pat` as a contiguous run of characters?  This models
the JS `String.prototype.includes` substring test. -/
def containsChars (pat : List Char) : List Char → Bool
  | [] => pat.isEmpty
  | b :: tb => leadsChars pat (b :: tb) || containsChars pat tb

/-- Lower-cased character sequence of a string (`toLowerCase()`). -/
def lowerChars (s : String) : List Char := s.toList.map Char.toLower

/-- `lower.includes(p.toLowerCase())`: the case-insensitive containment test
used throughout `evalDocForElements` (the document text is lower-cased once). -/
def textHas (textLower : List Char) (pat : String) : Bool :=
  containsChars (lowerChars pat) textLower

/-- One checklist element: `{id, label, pats}`. -/
structure ChkElement where
  id : String
  label : String
  pats : List String
deriving DecidableEq, Repr

/-- `CHNA_ELEMENTS` (`app.js` lines 181–189): the seven assessment-documentation
checklist elements. -/
def CHNA_ELEMENTS : List ChkElement :=
  [ { id := "community_def", label := "Definition of community served + how determined",
      pats := ["definition of the community","community served","service area","community definition","how the community was determined"] },
    { id := "methods", label := "Process and methods used to conduct CHNA",
      pats := ["methods","methodology","data sources","process used","approach","survey methodology","focus group"] },
    { id := "input", label := "How input was solicited and taken into account (broad interests)",
      pats := ["input from persons who represent","broad interests of the community","community input","stakeholder input","community representatives"] },
    { id := "underserved", label := "Description of medically underserved / low-income / minority populations represented by input",
      pats := ["medically underserved","low-income","minority populations","priority populations","vulnerable populations","underserved populations"] },
    { id := "priorities", label := "Prioritized description of significant health needs",
      pats := ["prioritized","priority health needs","significant health needs","ranked","top needs","prioritization"] },
    { id := "resources", label := "Resources potentially available to address identified needs",
      pats := ["resources available","available resources","community resources","assets","existing programs","capacity"] },
    { id := "impact_eval", label := "Evaluation of impact since the immediately preceding CHNA",
      pats := ["evaluation of impact","impact of actions","progress since","results since last","prior CHNA","evaluation since"] } ]

/-- `IS_ELEMENTS` (`app.js` lines 191–195): the three implementation-plan
checklist elements. -/
def IS_ELEMENTS : List ChkElement :=
  [ { id := "is_actions", label := "Actions to address each health need",
      pats := ["actions the hospital will take","strategy","interventions","action plan","will address"] },
    { id := "is_resources_impact", label := "Resources devoted + anticipated impact",
      pats := ["resources devoted","anticipated impact","budget","investment","expected impact","metrics"] },
    { id := "is_collab", label := "Planned collaborations with other institutions",
      pats := ["collaboration","partner","coalition","in partnership with","collaborate with","community partners"] } ]

/-- `WRITTEN_COMMENT_ELEMENTS` (`app.js` lines 197–201): the three
comment-solicitation checklist elements. -/
def WRITTEN_COMMENT_ELEMENTS : List ChkElement :=
  [ { id := "wc_solicit", label := "How written comments were solicited (most recent CHNA/IS)",
      pats := ["written comments","public comment","comment period","solicit","feedback form","survey","web-based","paper survey","community forum","open house","telephone"] },
    { id := "wc_received", label := "At least 1 written comment received",
      pats := ["we received","comments were received","comment(s) received","written comment","responses received","feedback received"] },
    { id := "wc_used", label := "How comments were taken into account in current CHNA/IS",
      pats := ["taken into account","incorporated","informed","used to update","we considered","resulting changes","we adjusted","we revised"] } ]

/-- `publicPats` (`app.js` line 219). -/
def publicPats : List String :=
  ["available on our website","posted on our website","publicly available","public comment","comment period","available online"]

/-- Is a checklist element present: first-match-wins over its trigger phrases
(`for(const p of el.pats){ if(lower.includes(...)){ found = p; break; } }`). -/
def elementPresent (textLower : List Char) (el : ChkElement) : Bool :=
  el.pats.any (textHas textLower)

/-- `presentCount` of a block: how many elements are present. -/
def presentCount (textLower : List Char) (block : List ChkElement) : ℕ :=
  (block.filter (elementPresent textLower)).length

/-- `scoreBlock`'s score (`app.js` line 234):
`Math.round((presentCount / hits.length) * 100)`. -/
def scoreBlock (textLower : List Char) (block : List ChkElement) : ℤ :=
  jsRound ((presentCount textLower block : ℚ) / (block.length : ℚ) * 100)

/-- The result record of `evalDocForElements` (scores only; the hit lists and
snippets are presentation data derived from the same presence tests). -/
structure DocEval where
  doc : String
  isCHNA : Bool
  isIS : Bool
  chnaScore : ℤ
  isScore : ℤ
  writtenCommentsScore : ℤ
  publicScore : ℤ
deriving DecidableEq, Repr

/-- `evalDocForElements(doc)` (`app.js` lines 211–257): concatenate the page
texts with `" \n"`, lower-case once, classify the document, score the three
checklist blocks — with the written-comments block snapped to the discrete
scale `3→100, 2→67, 1→33, 0→0` (line 242) — and derive the public-availability
signal. -/
def evalDocForElements (doc : Document) : DocEval :=
  let all := String.intercalate " \n" doc.textByPage
  let lower := lowerChars all
  let wcCount := presentCount lower WRITTEN_COMMENT_ELEMENTS
  { doc := doc.name,
    isCHNA := textHas lower "community health needs assessment" || textHas lower "chna",
    isIS := textHas lower "implementation strategy" || textHas lower "implementation plan"
            || textHas lower "implementation strategies",
    chnaScore := scoreBlock lower CHNA_ELEMENTS,
    isScore := scoreBlock lower IS_ELEMENTS,
    writtenCommentsScore :=
      if wcCount = 3 then 100 else if wcCount = 2 then 67 else if wcCount = 1 then 33 else 0,
    publicScore := if publicPats.any (textHas lower) then 100 else 0 }

/-! ## Pipeline state and the reset handler (`app.js` lines 29–38, 872–890) -/

/-- One entry of `state.evidence`: `{disparity, snippet, doc, page}` (line 31). -/
structure Evidence where
  disparity : String
  snippet : String
  doc : String
  page : ℕ
deriving DecidableEq, Repr

/-- The Tier-3 scenario cache persisted by `runTier3` into `state.model`
(numeric outputs; `app.js` lines 676–692). -/
structure Tier3Out where
  eligibleTouchpoints : ℚ
  ampFactor : ℚ
  effBarrierShare : ℚ
  prevented : ℚ
  unitsAnnual : ℚ
  grossAnnual : ℚ
  totalCostH : ℚ
  annualCost : ℚ
  netAnnual : ℚ
deriving DecidableEq, Repr

/-- The global `state` object (`app.js` lines 29–38). -/
structure PipelineState where
  docs : List Document
  evidence : List Evidence
  findings : List Finding
  opportunities : List Opportunity
  selectedOpp : Option Opportunity
  transport : TransportScalars
  chnaEval : List DocEval
  model : Option Tier3Out
deriving Repr

/-- The `btn_reset` click handler's state mutations (`app.js` lines 872–890):
docs, evidence, findings, opportunities, selectedOpp and chnaEval are emptied
and the transport scalars are reset to null; `state.model` is not touched. -/
def resetState (s : PipelineState) : PipelineState :=
  { s with docs := [], evidence := [], findings := [], opportunities := [],
           selectedOpp := none, chnaEval := [],
           transport := { overall := none, age6574 := none } }

/-! ## Tier-3 projection engine (`runTier3`, `app.js` lines 626–673), over ℚ
(finite-float abstraction, for the algebraic claims) -/

/-- The parsed numeric inputs of `runTier3` (lines 628–644): `months` is the
`parseInt` result; the percentage-style inputs (`inp_base`, `inp_share`,
`inp_red`) are the raw DOM numbers, divided by 100 inside the engine;
`covPct` and `senSharePct` are raw percentages. -/
structure Tier3In where
  months : ℤ
  annual : ℚ
  basePct : ℚ
  sharePct : ℚ
  redPct : ℚ
  covPct : ℚ
  weightFlat : Bool
  senSharePctRaw : ℚ
  benefitPer : ℚ
  startup : ℚ
  fixed : ℚ
  varCost : ℚ
  unitsPer : ℚ
  transport : TransportScalars
deriving Repr

/-- The computation chain of `runTier3` (lines 646–673): coverage, the
transport amplification factor (65–74 vs overall, defaulting to 1.0 and
forced to 1.0 in flat mode), the senior-weighted effective barrier share
clamped to [0,1], disruption/prevention volumes, and the cost identities
`totalCostH = startup + fixed*months + unitsAnnual*(months/12)*varCost`,
`annualCost = totalCostH*(12/months)`, `netAnnual = grossAnnual - annualCost`. -/
def runTier3 (i : Tier3In) : Tier3Out :=
  let baseRate := i.basePct / 100
  let share := i.sharePct / 100
  let red := i.redPct / 100
  let senSharePct := clamp i.senSharePctRaw 0 100
  let eligibleTouchpoints := i.annual * (i.covPct / 100)
  let amp0 : ℚ :=
    match i.transport.overall, i.transport.age6574 with
    | some o, some a => if o > 0 then a / o else 1
    | _, _ => 1
  let ampFactor := if i.weightFlat then 1 else amp0
  let senShare := senSharePct / 100
  let effBarrierShare := clamp (share * ((1 - senShare) * 1 + senShare * ampFactor)) 0 1
  let baselineDisrupt := eligibleTouchpoints * baseRate
  let barrierDisrupt := baselineDisrupt * effBarrierShare
  let prevented := barrierDisrupt * red
  let unitsAnnual := prevented * i.unitsPer
  let grossAnnual := prevented * i.benefitPer
  let totalCostH := i.startup + i.fixed * (i.months : ℚ)
                    + unitsAnnual * ((i.months : ℚ) / 12) * i.varCost
  let annualCost := totalCostH * (12 / (i.months : ℚ))
  let netAnnual := grossAnnual - annualCost
  { eligibleTouchpoints := eligibleTouchpoints, ampFactor := ampFactor,
    effBarrierShare := effBarrierShare, prevented := prevented,
    unitsAnnual := unitsAnnual, grossAnnual := grossAnnual,
    totalCostH := totalCostH, annualCost := annualCost, netAnnual := netAnnual }

/-! ## IEEE-style number model (`JSNum`) for the error-handling claim

JS arithmetic on 64-bit floats can produce `NaN` and `±Infinity`; the ℚ
embedding above cannot express those, so the divide-by-zero/guarding claim
is settled over this value type.  Finite values carry a rational; negative
zero is identified with zero (it does not affect the claims settled here,
which only involve division by the literal non-negative `months`). -/

inductive JSNum where
  | nan : JSNum
  | inf : JSNum
  | ninf : JSNum
  | num : ℚ → JSNum
deriving DecidableEq, Repr

namespace JSNum

/-- Is the value a finite number (`Number.isFinite`)? -/
def isFinite : JSNum → Bool
  | num _ => true
  | _ => false

/-- IEEE addition. -/
def add : JSNum → JSNum → JSNum
  | nan, _ => nan
  | _, nan => nan
  | inf, ninf => nan
  | ninf, inf => nan
  | inf, _ => inf
  | _, inf => inf
  | ninf, _ => ninf
  | _, ninf => ninf
  | num a, num b => num (a + b)

/-- IEEE negation. -/
def neg : JSNum → JSNum
  | nan => nan
  | inf => ninf
  | ninf => inf
  | num a => num (-a)

/-- IEEE subtraction. -/
def sub (x y : JSNum) : JSNum := add x (neg y)

/-- IEEE multiplication (`0 * ±Infinity = NaN`). -/
def mul : JSNum → JSNum → JSNum
  | nan, _ => nan
  | _, nan => nan
  | inf, inf => inf
  | inf, ninf => ninf
  | ninf, inf => ninf
  | ninf, ninf => inf
  | inf, num b => if b > 0 then inf else if b < 0 then ninf else nan
  | num a, inf => if a > 0 then inf else if a < 0 then ninf else nan
  | ninf, num b => if b > 0 then ninf else if b < 0 then inf else nan
  | num a, ninf => if a > 0 then ninf else if a < 0 then inf else nan
  | num a, num b => num (a * b)

/-- IEEE division (division of a nonzero finite by zero gives a signed
infinity, `0/0 = NaN`, division by an infinity gives zero). -/
def div : JSNum → JSNum → JSNum
  | nan, _ => nan
  | _, nan => nan
  | inf, inf => nan
  | inf, ninf => nan
  | ninf, inf => nan
  | ninf, ninf => nan
  | inf, num b => if b ≥ 0 then inf else ninf
  | ninf, num b => if b ≥ 0 then ninf else inf
  | num _, inf => num 0
  | num _, ninf => num 0
  | num a, num b =>
      if b = 0 then (if a > 0 then inf else if a < 0 then ninf else nan)
      else num (a / b)

/-- `Math.max` (NaN-propagating). -/
def jmax : JSNum → JSNum → JSNum
  | nan, _ => nan
  | _, nan => nan
  | inf, _ => inf
  | _, inf => inf
  | ninf, y => y
  | x, ninf => x
  | num a, num b => num (max a b)

/-- `Math.min` (NaN-propagating). -/
def jmin : JSNum → JSNum → JSNum
  | nan, _ => nan
  | _, nan => nan
  | ninf, _ => ninf
  | _, ninf => ninf
  | inf, y => y
  | x, inf => x
  | num a, num b => num (min a b)

/-- `clamp(n, min, max)` over JS numbers: `Math.max(min, Math.min(max, n))`. -/
def jclamp (n lo hi : JSNum) : JSNum := jmax lo (jmin hi n)

end JSNum

/-- `_normRate(x)` (`app.js` lines 1579–1583): NaN is coerced to 0, values
above 1 are read as percentages (`x/100`), values ≤ 1 as fractions. -/
def normRate : JSNum → JSNum
  | JSNum.nan => JSNum.num 0
  | JSNum.inf => JSNum.inf
  | JSNum.ninf => JSNum.ninf
  | JSNum.num q => if q > 1 then JSNum.num (q / 100) else JSNum.num q

/-- `parseFloat(...) || 0` (`roi_inputs`, lines 1586–1598): NaN is falsy and
becomes 0; every other value passes through. -/
def orZero : JSNum → JSNum
  | JSNum.nan => JSNum.num 0
  | x => x

/-- The outputs of `roi_calc` (`app.js` lines 1602–1622). -/
structure RoiOut where
  transport_no_shows : JSNum
  prevented : JSNum
  gross_rev : JSNum
  marginal_cost : JSNum
  transport_cost : JSNum
  overhead_cost : JSNum
  total_program_cost : JSNum
  net_benefit : JSNum
  be_trip_max : JSNum
  lmi_trips : JSNum
  aa_trips : JSNum
  bank_per_lmi : JSNum
  bank_share_cost : JSNum
deriving DecidableEq, Repr

/-- `roi_calc(inp)` (`app.js` lines 1602–1622), over JS numbers, with the two
zero-guarded divisions of lines 1616–1617
(`(lmi_trips===0) ? 0 : bank/lmi_trips` and
`(total_program_cost===0) ? 0 : bank/total_program_cost`). -/
def roiCalc (visits noshow share netrev margc mitig trip over lmi aa bank : JSNum) : RoiOut :=
  let transport_no_shows := JSNum.mul (JSNum.mul visits noshow) share
  let prevented := JSNum.mul transport_no_shows mitig
  let gross_rev := JSNum.mul prevented netrev
  let marginal_cost := JSNum.mul prevented margc
  let transport_cost := JSNum.mul prevented trip
  let overhead_cost := JSNum.mul transport_cost over
  let total_program_cost := JSNum.add transport_cost overhead_cost
  let net_benefit := JSNum.sub (JSNum.sub gross_rev marginal_cost) total_program_cost
  let be_trip_max := JSNum.sub netrev margc
  let trips := prevented
  let lmi_trips := JSNum.mul trips lmi
  let aa_trips := JSNum.mul trips aa
  let bank_per_lmi := if lmi_trips = JSNum.num 0 then JSNum.num 0 else JSNum.div bank lmi_trips
  let bank_share_cost :=
    if total_program_cost = JSNum.num 0 then JSNum.num 0 else JSNum.div bank total_program_cost
  { transport_no_shows := transport_no_shows, prevented := prevented,
    gross_rev := gross_rev, marginal_cost := marginal_cost,
    transport_cost := transport_cost, overhead_cost := overhead_cost,
    total_program_cost := total_program_cost, net_benefit := net_benefit,
    be_trip_max := be_trip_max, lmi_trips := lmi_trips, aa_trips := aa_trips,
    bank_per_lmi := bank_per_lmi, bank_share_cost := bank_share_cost }

/-- `roi_inputs()` normalization (lines 1586–1598) followed by `roi_calc`:
rate-style fields go through `_normRate`, the rest through `|| 0`. -/
def roiPipeline (visits noshow share netrev margc mitig trip over lmi aa bank : JSNum) : RoiOut :=
  roiCalc (orZero visits) (normRate noshow) (normRate share) (orZero netrev) (orZero margc)
    (normRate mitig) (orZero trip) (normRate over) (normRate lmi) (normRate aa) (orZero bank)

/-- The Tier-3 outputs over JS numbers (for the finiteness claim). -/
structure Tier3JSOut where
  prevented : JSNum
  unitsAnnual : JSNum
  grossAnnual : JSNum
  totalCostH : JSNum
  annualCost : JSNum
  netAnnual : JSNum
deriving DecidableEq, Repr

/-- The computation chain of `runTier3` (lines 646–673) over JS numbers:
identical to `runTier3` above but with IEEE semantics, so that the
unguarded annualization division `12/months` (line 672) is visible.  The
transport scalars are finite parsed percentages, and the `overall > 0`
test guards that division, so `ampFactor` stays rational. -/
def runTier3JS (months annual basePct sharePct redPct covPct : JSNum) (weightFlat : Bool)
    (senSharePctRaw benefitPer startup fixed varCost unitsPer : JSNum)
    (transport : TransportScalars) : Tier3JSOut :=
  let baseRate := JSNum.div basePct (JSNum.num 100)
  let share := JSNum.div sharePct (JSNum.num 100)
  let red := JSNum.div redPct (JSNum.num 100)
  let senSharePct := JSNum.jclamp senSharePctRaw (JSNum.num 0) (JSNum.num 100)
  let eligibleTouchpoints := JSNum.mul annual (JSNum.div covPct (JSNum.num 100))
  let amp0 : ℚ :=
    match transport.overall, transport.age6574 with
    | some o, some a => if o > 0 then a / o else 1
    | _, _ => 1
  let ampFactor : ℚ := if weightFlat then 1 else amp0
  let senShare := JSNum.div senSharePct (JSNum.num 100)
  let effBarrierShare :=
    JSNum.jclamp (JSNum.mul share (JSNum.add (JSNum.mul (JSNum.sub (JSNum.num 1) senShare) (JSNum.num 1))
      (JSNum.mul senShare (JSNum.num ampFactor)))) (JSNum.num 0) (JSNum.num 1)
  let baselineDisrupt := JSNum.mul eligibleTouchpoints baseRate
  let barrierDisrupt := JSNum.mul baselineDisrupt effBarrierShare
  let prevented := JSNum.mul barrierDisrupt red
  let unitsAnnual := JSNum.mul prevented unitsPer
  let grossAnnual := JSNum.mul prevented benefitPer
  let totalCostH := JSNum.add startup (JSNum.add (JSNum.mul fixed months)
    (JSNum.mul (JSNum.mul unitsAnnual (JSNum.div months (JSNum.num 12))) varCost))
  let annualCost := JSNum.mul totalCostH (JSNum.div (JSNum.num 12) months)
  let netAnnual := JSNum.sub grossAnnual annualCost
  { prevented := prevented, unitsAnnual := unitsAnnual, grossAnnual := grossAnnual,
    totalCostH := totalCostH, annualCost := annualCost, netAnnual := netAnnual }

/-! ## Lemmas about the transport-scalar scan -/

lemma getLast?_cons_eq (a : α) (l : List α) : (a :: l).getLast? = some (l.getLast?.getD a) := by
  induction l generalizing a with
  | nil => rfl
  | cons b l ih => rw [List.getLast?_cons_cons, ih b]; simp

lemma scanPage_overall (ex exA : String → Option ℚ) (s : TransportScalars) (t : String) :
    (scanPageTransport ex exA s t).overall =
      match ex t with
      | some v => if s.overall = none then some v else s.overall
      | none => s.overall := by
  unfold scanPageTransport
  cases hA : exA t <;> cases hO : ex t <;> simp [hA, hO] <;> split <;> simp

lemma scanPage_age (ex exA : String → Option ℚ) (s : TransportScalars) (t : String) :
    (scanPageTransport ex exA s t).age6574 =
      match exA t with
      | some v => some v
      | none => s.age6574 := by
  unfold scanPageTransport
  cases hA : exA t <;> cases hO : ex t <;> simp [hA, hO]
  split <;> simp

lemma foldPages_overall (ex exA : String → Option ℚ) :
    ∀ (pages : List String) (s : TransportScalars),
      (pages.foldl (scanPageTransport ex exA) s).overall =
        match s.overall with
        | some v => some v
        | none => (pages.filterMap ex).head?
  | [], s => by cases hs : s.overall <;> simp [hs]
  | t :: ts, s => by
      rw [List.foldl_cons, foldPages_overall ex exA ts]
      cases hO : ex t <;> cases hs : s.overall <;>
        simp [List.filterMap_cons, hO, scanPage_overall, hs]

lemma foldPages_age (ex exA : String → Option ℚ) :
    ∀ (pages : List String) (s : TransportScalars),
      (pages.foldl (scanPageTransport ex exA) s).age6574 =
        match (pages.filterMap exA).getLast? with
        | some v => some v
        | none => s.age6574
  | [], s => by simp
  | t :: ts, s => by
      rw [List.foldl_cons, foldPages_age ex exA ts]
      cases hA : exA t
      · simp [List.filterMap_cons, hA, scanPage_age]
      · rw [List.filterMap_cons]
        simp only [hA, getLast?_cons_eq]
        cases hm : (ts.filterMap exA).getLast? <;>
          simp [hm, scanPage_age, hA]

lemma scanAll_eq_foldPages (ex exA : String → Option ℚ) :
    ∀ (docs : List Document) (s : TransportScalars),
      docs.foldl (scanDocTransport ex exA) s =
        (allPages docs).foldl (scanPageTransport ex exA) s
  | [], _ => rfl
  | d :: ds, s => by
      rw [List.foldl_cons, scanAll_eq_foldPages ex exA ds]
      simp [allPages, scanDocTransport, List.foldl_append]

/-- C1 (counterexample): with an overall matcher that fires on both pages —
first with 3, then with 5 — the stored overall scalar after the scan is
3 (the earliest match), while the latest match in reading order is 5, so
the overall scalar is not overwritten by later matches. -/
theorem overall_scalar_keeps_first_match :
    (scanAllTransport
        (fun t => if t = "page one" then some 3 else if t = "page two" then some 5 else none)
        (fun _ => none)
        [{ name := "doc1", type := "txt", pages := 2, textByPage := ["page one", "page two"] }]).overall
      = some 3
    ∧ latestMatch
        (fun t => if t = "page one" then some 3 else if t = "page two" then some 5 else none)
        [{ name := "doc1", type := "txt", pages := 2, textByPage := ["page one", "page two"] }]
      = some 5
    ∧ (3 : ℚ) ≠ 5 := by
  refine ⟨by decide, by decide, by norm_num⟩

/-- C1 (amended): after scanning all documents, the age-65–74 transportation
scalar equals the value of the latest successful match in reading order
(each new match overwrites it, line 157), while the overall transportation
scalar equals the value of the earliest successful match (it is written only
while still null, line 150, and never overwritten afterwards). -/
theorem transport_scalars_first_and_latest (ex exA : String → Option ℚ) (docs : List Document) :
    (scanAllTransport ex exA docs).overall = earliestMatch ex docs
    ∧ (scanAllTransport ex exA docs).age6574 = latestMatch exA docs := by
  unfold scanAllTransport earliestMatch latestMatch
  rw [scanAll_eq_foldPages]
  refine ⟨?_, ?_⟩
  · rw [foldPages_overall]; simp [initTransport]
  · rw [foldPages_age]
    cases hm : ((allPages docs).filterMap exA).getLast? <;> simp [hm, initTransport]

/-! ## Lemmas about the finding aggregator -/

lemma updateExisting_key (f : Finding) (m : ℚ) (p : ℕ) (e : String) :
    (updateExisting f m p e).key = f.key := by
  unfold updateExisting; split <;> rfl

lemma updateExisting_segment (f : Finding) (m : ℚ) (p : ℕ) (e : String) :
    (updateExisting f m p e).segment = f.segment := by
  unfold updateExisting; split <;> rfl

lemma updateExisting_of_le (f : Finding) (m : ℚ) (p : ℕ) (e : String) (h : m ≤ f.magnitude) :
    updateExisting f m p e = f := by
  unfold updateExisting; rw [if_neg (not_lt.mpr h)]

lemma updateExisting_of_gt (f : Finding) (m : ℚ) (p : ℕ) (e : String) (h : f.magnitude < m) :
    updateExisting f m p e =
      { f with magnitude := m, prominence := max f.prominence p, evidenceRef := e } := by
  unfold updateExisting; rw [if_pos h]

lemma updateExisting_magnitude (f : Finding) (m : ℚ) (p : ℕ) (e : String) :
    (updateExisting f m p e).magnitude = max f.magnitude m := by
  unfold updateExisting
  split
  · next h => exact (max_eq_right (le_of_lt h)).symm
  · next h => exact (max_eq_left (not_lt.mp h)).symm

lemma runSubs_nil (f : Finding) : runSubs f [] = f := rfl

lemma runSubs_cons (f : Finding) (s : Submission) (ss : List Submission) :
    runSubs f (s :: ss) = runSubs (updateExisting f s.1 s.2.1 s.2.2) ss := rfl

lemma runSubs_magnitude (subs : List Submission) :
    ∀ f : Finding, (runSubs f subs).magnitude = (subs.map (·.1)).foldl max f.magnitude := by
  induction subs with
  | nil => intro f; rfl
  | cons s ss ih =>
      intro f
      rw [runSubs_cons, ih, List.map_cons, List.foldl_cons, updateExisting_magnitude]

lemma runSubs_of_all_le (subs : List Submission) :
    ∀ f : Finding, (∀ s ∈ subs, s.1 ≤ f.magnitude) → runSubs f subs = f := by
  induction subs with
  | nil => intro f _; rfl
  | cons s ss ih =>
      intro f h
      rw [runSubs_cons, updateExisting_of_le _ _ _ _ (h s (List.mem_cons_self s ss))]
      exact ih f (fun x hx => h x (List.mem_cons_of_mem s hx))

lemma le_foldl_max_init {α : Type*} [LinearOrder α] :
    ∀ (l : List α) (init : α), init ≤ l.foldl max init
  | [], _ => le_refl _
  | a :: l, init => le_trans (le_max_left init a) (le_foldl_max_init l (max init a))

lemma le_foldl_max_mem {α : Type*} [LinearOrder α] :
    ∀ (l : List α) (init a : α), a ∈ l → a ≤ l.foldl max init
  | [], _, _, h => absurd h (List.not_mem_nil _)
  | b :: l, init, a, h => by
      rw [List.foldl_cons]
      rcases List.mem_cons.mp h with h1 | h2
      · exact h1 ▸ le_trans (le_max_right init a) (le_foldl_max_init l _)
      · exact le_foldl_max_mem l _ a h2

lemma foldl_max_mono_init {α : Type*} [LinearOrder α] :
    ∀ (l : List α) (a b : α), a ≤ b → l.foldl max a ≤ l.foldl max b
  | [], _, _, h => h
  | x :: l, a, b, h => by
      rw [List.foldl_cons, List.foldl_cons]
      exact foldl_max_mono_init l _ _ (max_le_max h (le_refl x))

lemma foldl_addFinding_single (key disparity segment : String) :
    ∀ (subs : List Submission) (f : Finding), f.key = key → f.segment = segment →
      subs.foldl (fun st s => addFinding st key disparity segment s.1 s.2.1 s.2.2) [f]
        = [runSubs f subs]
  | [], f, _, _ => rfl
  | s :: ss, f, hk, hs => by
      rw [List.foldl_cons]
      have hstep : addFinding [f] key disparity segment s.1 s.2.1 s.2.2
          = [updateExisting f s.1 s.2.1 s.2.2] := by
        simp [addFinding, hk, hs]
      rw [hstep, foldl_addFinding_single key disparity segment ss _
            (by rw [updateExisting_key]; exact hk)
            (by rw [updateExisting_segment]; exact hs),
          runSubs_cons]

/-- C2: for an existing identity, `addFinding` leaves the record entirely
unchanged unless the incoming magnitude is strictly greater (so equal
magnitudes keep the earliest evidence reference); on a strictly greater
magnitude it installs the incoming magnitude and evidence reference and
raises prominence to the running maximum.  Consequently the final magnitude
over any submission stream is the maximum of all submitted magnitudes, is
invariant under reordering of the stream (document order does not matter),
and replaying the same stream is idempotent. -/
theorem addFinding_update_semantics (key disparity segment : String)
    (f₀ : Finding) (subs : List Submission) :
    (∀ (f : Finding) (m : ℚ) (p : ℕ) (e : String), m ≤ f.magnitude →
        updateExisting f m p e = f)
    ∧ (∀ (f : Finding) (m : ℚ) (p : ℕ) (e : String), f.magnitude < m →
        updateExisting f m p e =
          { f with magnitude := m, prominence := max f.prominence p, evidenceRef := e })
    ∧ (runSubs f₀ subs).magnitude = (subs.map (·.1)).foldl max f₀.magnitude
    ∧ (∀ subs' : List Submission, List.Perm subs subs' →
        (runSubs f₀ subs).magnitude = (runSubs f₀ subs').magnitude)
    ∧ ((∀ s ∈ subs, s.1 ≤ f₀.magnitude) → runSubs f₀ subs = f₀)
    ∧ runSubs (runSubs f₀ subs) subs = runSubs f₀ subs
    ∧ (f₀.key = key → f₀.segment = segment →
        subs.foldl (fun st s => addFinding st key disparity segment s.1 s.2.1 s.2.2) [f₀]
          = [runSubs f₀ subs]) := by
  refine ⟨updateExisting_of_le, updateExisting_of_gt, runSubs_magnitude subs f₀, ?_, ?_, ?_, ?_⟩
  · intro subs' hperm
    rw [runSubs_magnitude subs f₀, runSubs_magnitude subs' f₀]
    exact (hperm.map (·.1)).foldl_eq' (fun x _ y _ z => Max.right_comm z x y) f₀.magnitude
  · exact runSubs_of_all_le subs f₀
  · refine runSubs_of_all_le subs _ (fun s hs => ?_)
    rw [runSubs_magnitude subs f₀]
    exact le_foldl_max_mem _ _ _ (List.mem_map_of_mem (·.1) hs)
  · exact fun hk hs => foldl_addFinding_single key disparity segment subs f₀ hk hs

/-- C2 witness: the theorem instantiated at a concrete stream — a record of
magnitude 5, then submissions with magnitudes 7 and 7 again: the final
magnitude is 7 (the maximum), a reordered stream gives the same magnitude,
and a stream of submissions not exceeding the stored magnitude leaves the
record untouched. -/
theorem addFinding_update_semantics_witness :
    runSubs (mkFinding "transport" "Transportation barrier" "Overall" 5 2 "a")
        [(7, 1, "b"), (7, 3, "c")]
      = { key := "transport", disparity := "Transportation barrier", segment := "Overall",
          magnitude := 7, prominence := 2, concentration := 0, score := 0, recommend := "",
          evidenceRef := "b" }
    ∧ (runSubs (mkFinding "transport" "Transportation barrier" "Overall" 5 2 "a")
        [(7, 1, "b"), (7, 3, "c")]).magnitude
      = (runSubs (mkFinding "transport" "Transportation barrier" "Overall" 5 2 "a")
        [(7, 3, "c"), (7, 1, "b")]).magnitude
    ∧ runSubs (mkFinding "transport" "Transportation barrier" "Overall" 5 2 "a") [(5, 9, "d")]
      = mkFinding "transport" "Transportation barrier" "Overall" 5 2 "a" := by
  have h := addFinding_update_semantics "transport" "Transportation barrier" "Overall"
    (mkFinding "transport" "Transportation barrier" "Overall" 5 2 "a") [(7, 1, "b"), (7, 3, "c")]
  refine ⟨by decide, ?_, ?_⟩
  · exact h.2.2.2.1 [(7, 3, "c"), (7, 1, "b")] (List.Perm.swap _ _ _)
  · have h2 := addFinding_update_semantics "transport" "Transportation barrier" "Overall"
      (mkFinding "transport" "Transportation barrier" "Overall" 5 2 "a") [(5, 9, "d")]
    exact h2.2.2.2.2.1 (by decide)

/-- The scalar (magnitude, prominence) trace of the `addFinding` update rule
for one identity: a submission is accepted only when its magnitude strictly
exceeds the stored running maximum, and only then raises prominence to the
max of the stored and incoming prominence. -/
def magPromFold (mp : ℚ × ℕ) (subs : List Submission) : ℚ × ℕ :=
  subs.foldl (fun a s => if a.1 < s.1 then (s.1, max a.2 s.2.1) else a) mp

lemma magPromFold_nil (mp : ℚ × ℕ) : magPromFold mp [] = mp := rfl

lemma magPromFold_cons (mp : ℚ × ℕ) (s : Submission) (ss : List Submission) :
    magPromFold mp (s :: ss)
      = magPromFold (if mp.1 < s.1 then (s.1, max mp.2 s.2.1) else mp) ss := by
  unfold magPromFold
  rw [List.foldl_cons]

lemma runSubs_magProm (subs : List Submission) :
    ∀ f : Finding,
      ((runSubs f subs).magnitude, (runSubs f subs).prominence)
        = magPromFold (f.magnitude, f.prominence) subs := by
  induction subs with
  | nil => intro f; rfl
  | cons s ss ih =>
      intro f
      rw [runSubs_cons, ih, magPromFold_cons]
      unfold updateExisting
      split
      · simp
      · rfl

lemma magPromFold_prom_mono (subs : List Submission) :
    ∀ mp : ℚ × ℕ, mp.2 ≤ (magPromFold mp subs).2 := by
  induction subs with
  | nil => intro mp; exact le_refl _
  | cons s ss ih =>
      intro mp
      rw [magPromFold_cons]
      by_cases h : mp.1 < s.1
      · rw [if_pos h]
        exact le_trans (le_max_left _ _) (ih (s.1, max mp.2 s.2.1))
      · rw [if_neg h]; exact ih mp

lemma magPromFold_prom_le (subs : List Submission) :
    ∀ mp : ℚ × ℕ, (magPromFold mp subs).2 ≤ (subs.map (·.2.1)).foldl max mp.2 := by
  induction subs with
  | nil => intro mp; exact le_refl _
  | cons s ss ih =>
      intro mp
      rw [magPromFold_cons, List.map_cons, List.foldl_cons]
      by_cases h : mp.1 < s.1
      · rw [if_pos h]; exact ih (s.1, max mp.2 s.2.1)
      · rw [if_neg h]
        exact le_trans (ih mp) (foldl_max_mono_init _ _ _ (le_max_left _ _))

/-- C3 (counterexample): submissions (magnitude 10, prominence 1) then
(magnitude 5, prominence 7) for the same identity leave the stored
prominence at 1, because the second submission is rejected by the
strictly-greater magnitude test (`app.js` line 113); the claimed running
maximum of all submitted prominences would be 7. -/
theorem prominence_not_max_of_all_submissions :
    (runAddFinding "transport" "Transportation barrier" "Overall"
        [(10, 1, "a"), (5, 7, "b")]).map (fun f => f.prominence) = [1]
    ∧ max 1 7 = 7
    ∧ (1 : ℕ) ≠ 7 := by
  refine ⟨by decide, by decide, by decide⟩

/-- C3 (amended): the prominence stored on a finding after a stream of
same-identity submissions is the running maximum of prominences restricted
to the accepted submissions — the initially stored value and every
submission whose magnitude strictly exceeded the running-maximum magnitude
at its turn; rejected submissions leave prominence unchanged even when
theirs is larger.  In particular the final prominence never decreases below
the stored value and never exceeds the maximum of all submitted
prominences. -/
theorem prominence_is_accepted_running_max (f₀ : Finding) (subs : List Submission) :
    (runSubs f₀ subs).prominence = (magPromFold (f₀.magnitude, f₀.prominence) subs).2
    ∧ (runSubs f₀ subs).magnitude = (magPromFold (f₀.magnitude, f₀.prominence) subs).1
    ∧ f₀.prominence ≤ (runSubs f₀ subs).prominence
    ∧ (runSubs f₀ subs).prominence ≤ (subs.map (·.2.1)).foldl max f₀.prominence := by
  have h := runSubs_magProm subs f₀
  have hmag : (runSubs f₀ subs).magnitude = (magPromFold (f₀.magnitude, f₀.prominence) subs).1 :=
    congrArg Prod.fst h
  have hprom : (runSubs f₀ subs).prominence = (magPromFold (f₀.magnitude, f₀.prominence) subs).2 :=
    congrArg Prod.snd h
  refine ⟨hprom, hmag, ?_, ?_⟩
  · rw [hprom]; exact magPromFold_prom_mono subs (f₀.magnitude, f₀.prominence)
  · rw [hprom]; exact magPromFold_prom_le subs (f₀.magnitude, f₀.prominence)

/-! ## Lemmas about the stable descending sort -/

lemma mem_insertDesc {α : Type*} (score : α → ℤ) (a x : α) :
    ∀ l : List α, x ∈ insertDesc score a l ↔ x = a ∨ x ∈ l
  | [] => by simp [insertDesc]
  | b :: l => by
      unfold insertDesc
      split
      · rw [List.mem_cons, mem_insertDesc score a x l, List.mem_cons]
        tauto
      · simp [List.mem_cons]

lemma mem_sortDesc {α : Type*} (score : α → ℤ) (x : α) :
    ∀ l : List α, x ∈ sortDesc score l ↔ x ∈ l
  | [] => Iff.rfl
  | a :: l => by
      unfold sortDesc
      rw [mem_insertDesc, mem_sortDesc score x l, List.mem_cons]

lemma length_insertDesc {α : Type*} (score : α → ℤ) (a : α) :
    ∀ l : List α, (insertDesc score a l).length = l.length + 1
  | [] => rfl
  | b :: l => by
      unfold insertDesc
      split
      · rw [List.length_cons, length_insertDesc score a l, List.length_cons]
      · rfl

lemma length_sortDesc {α : Type*} (score : α → ℤ) :
    ∀ l : List α, (sortDesc score l).length = l.length
  | [] => rfl
  | a :: l => by
      unfold sortDesc
      rw [length_insertDesc, length_sortDesc score l, List.length_cons]

/-! ## The materiality scorer's transportation bonus -/

lemma scoreFinding_key (b : ℚ) (f : Finding) : (scoreFinding b f).key = f.key := rfl

lemma scoreFinding_magnitude (b : ℚ) (f : Finding) :
    (scoreFinding b f).magnitude = f.magnitude := rfl

lemma scoreFinding_concentration (b : ℚ) (f : Finding) :
    (scoreFinding b f).concentration = f.concentration := rfl

lemma scoreFinding_prominence (b : ℚ) (f : Finding) :
    (scoreFinding b f).prominence = f.prominence := rfl

lemma scoreFinding_score (b : ℚ) (f : Finding) :
    (scoreFinding b f).score =
      if f.key = "transport" then
        clampInt (jsRound (clamp (f.magnitude / 30 * 60) 0 60
          + clamp (f.concentration / 15 * 25) 0 25
          + clamp ((f.prominence : ℚ) / 6 * 15) 0 15) + jsRound b) 0 100
      else jsRound (clamp (f.magnitude / 30 * 60) 0 60
          + clamp (f.concentration / 15 * 25) 0 25
          + clamp ((f.prominence : ℚ) / 6 * 15) 0 15) := rfl

/-- Modelled from the spec's words, for comparison with the code: the claimed
transportation score adds the bonus `clamp((amp-1)*8, 0, 10)` itself (not its
rounded value) to the rounded base score and re-clamps the total to [0,100]. -/
def specTransportScore (base : ℤ) (bonus : ℚ) : ℚ :=
  clamp ((base : ℚ) + bonus) 0 100

/-- C4 (counterexample): with overall = 16 and age-65–74 = 21 the
amplification is 21/16, so the bonus is `clamp((21/16-1)*8,0,10) = 5/2`;
on a transport finding with magnitude 0 and prominence 0 the code stores
score `round(0) + round(5/2) = 3`, while the claimed formula (adding the
bonus unrounded, then re-clamping) yields 5/2 ≠ 3. -/
theorem transport_bonus_is_rounded_counterexample :
    (computeMateriality [mkFinding "transport" "Transportation barrier" "Overall" 0 0 "e"]
        { overall := some 16, age6574 := some 21 }).map (fun f => f.score) = [3]
    ∧ specTransportScore 0 (transportBonus { overall := some 16, age6574 := some 21 }) = 5/2
    ∧ ((3 : ℚ) ≠ 5/2) := by
  refine ⟨?_, ?_, by norm_num⟩
  · show (sortDesc Finding.score _).map _ = _
    rw [show setConcentration [mkFinding "transport" "Transportation barrier" "Overall" 0 0 "e"]
          = [mkFinding "transport" "Transportation barrier" "Overall" 0 0 "e"] from rfl]
    rw [show transportBonus { overall := some 16, age6574 := some 21 } = 5/2 by
          simp only [transportBonus]
          rw [if_pos (by norm_num)]
          unfold clamp
          norm_num]
    simp only [List.map_cons, List.map_nil, sortDesc, insertDesc, scoreFinding_score, mkFinding]
    norm_num [clamp, clampInt, jsRound, round_eq]
  · rw [show transportBonus { overall := some 16, age6574 := some 21 } = 5/2 by
          simp only [transportBonus]
          rw [if_pos (by norm_num)]
          unfold clamp
          norm_num]
    unfold specTransportScore clamp
    norm_num

/-- C4 (amended): for every findings list and known transport scalars with a
positive overall value, every transport finding's stored score is the rounded
base score plus the **rounded** bonus `round(clamp((amp-1)*8, 0, 10))` with
`amp = age6574/overall`, re-clamped to [0,100]; and in particular with
overall = 2.7 and age-65–74 = 8.5 the bonus is exactly 10 (unaffected by the
rounding). -/
theorem transport_score_adds_rounded_bonus (findings : List Finding) (t : TransportScalars)
    (o a : ℚ) (ho : t.overall = some o) (ha : t.age6574 = some a) (hpos : 0 < o) :
    (∀ g ∈ computeMateriality findings t, g.key = "transport" →
      g.score = clampInt (jsRound (clamp (g.magnitude / 30 * 60) 0 60
        + clamp (g.concentration / 15 * 25) 0 25
        + clamp ((g.prominence : ℚ) / 6 * 15) 0 15)
        + jsRound (clamp ((a / o - 1) * 8) 0 10)) 0 100)
    ∧ (o = 27/10 → a = 17/2 → clamp ((a / o - 1) * 8) 0 10 = 10) := by
  constructor
  · intro g hg hkey
    rw [computeMateriality, mem_sortDesc] at hg
    obtain ⟨h, _, rfl⟩ := List.mem_map.mp hg
    rw [scoreFinding_key] at hkey
    rw [scoreFinding_score, if_pos hkey, scoreFinding_magnitude, scoreFinding_concentration,
        scoreFinding_prominence]
    have hb : transportBonus t = clamp ((a / o - 1) * 8) 0 10 := by
      simp only [transportBonus, ho, ha]
      rw [if_pos hpos]
    rw [hb]
  · intro ho' ha'
    subst ho' ha'
    unfold clamp
    norm_num

/-- C4 witness: the amended theorem applied at the spec's worked example —
transport scalars overall = 2.7 and age-65–74 = 8.5 — discharging the
positivity hypothesis, giving the bonus value 10 exactly. -/
theorem transport_score_adds_rounded_bonus_witness :
    clamp ((17/2 / (27/10 : ℚ) - 1) * 8) 0 10 = 10 :=
  (transport_score_adds_rounded_bonus []
      { overall := some (27/10), age6574 := some (17/2) }
      (27/10) (17/2) rfl rfl (by norm_num)).2 rfl rfl

/-! ## Clamp evaluation helpers -/

lemma clamp_of_mem (n lo hi : ℚ) (h1 : lo ≤ n) (h2 : n ≤ hi) : clamp n lo hi = n := by
  unfold clamp; rw [min_eq_right h2, max_eq_right h1]

lemma clamp_of_ge (n lo hi : ℚ) (h1 : hi ≤ n) (h2 : lo ≤ hi) : clamp n lo hi = hi := by
  unfold clamp; rw [min_eq_left h1, max_eq_right h2]

lemma clampInt_of_mem (n lo hi : ℤ) (h1 : lo ≤ n) (h2 : n ≤ hi) : clampInt n lo hi = n := by
  unfold clampInt; rw [min_eq_right h2, max_eq_right h1]

/-! ## The opportunity synthesizer -/

lemma mem_buildOpportunities (findings : List Finding) (o : Opportunity) :
    o ∈ buildOpportunities findings ↔
      o = transportOpportunity findings
      ∨ (∃ f, bestByKey findings "food" = some f ∧ o = foodOpportunity f)
      ∨ (∃ f, bestByKey findings "access" = some f ∧ o = careOpportunity f) := by
  unfold buildOpportunities
  rw [mem_sortDesc]
  cases hf : bestByKey findings "food" <;> cases ha : bestByKey findings "access" <;>
    simp [hf, ha]

lemma transportOpportunity_kind (findings : List Finding) :
    (transportOpportunity findings).kind = "nmt" := rfl

lemma foodOpportunity_kind (f : Finding) : (foodOpportunity f).kind = "food" := rfl

lemma careOpportunity_kind (f : Finding) : (careOpportunity f).kind = "care" := rfl

lemma transportOpportunity_score_of_none (findings : List Finding)
    (h : bestByKey findings "transport" = none) :
    (transportOpportunity findings).score = scoreOpportunity 90 55 attribution 35 := by
  simp only [transportOpportunity, h]
  rw [show (((55 : ℤ) : ℚ)) = (55 : ℚ) by norm_num]
  rw [clamp_of_mem 55 0 100 (by norm_num) (by norm_num)]

/-- C5: the synthesizer always returns a non-empty list containing a
transportation opportunity (kind "nmt"), for every findings list including
the empty one; when no transport finding exists, the transportation
opportunity's responsiveness input is the fixed neutral default 55; and
food/access-to-care opportunities appear in the output exactly when a
finding with key "food"/"access" exists. -/
theorem synthesizer_guarantees (findings : List Finding) :
    buildOpportunities findings ≠ []
    ∧ (∃ o ∈ buildOpportunities findings, o.kind = "nmt")
    ∧ (bestByKey findings "transport" = none →
        ∀ o ∈ buildOpportunities findings, o.kind = "nmt" →
          o.score = scoreOpportunity 90 55 attribution 35)
    ∧ ((∃ o ∈ buildOpportunities findings, o.kind = "food") ↔ ∃ f ∈ findings, f.key = "food")
    ∧ ((∃ o ∈ buildOpportunities findings, o.kind = "care") ↔ ∃ f ∈ findings, f.key = "access") := by
  have hmemT : transportOpportunity findings ∈ buildOpportunities findings :=
    (mem_buildOpportunities findings _).mpr (Or.inl rfl)
  refine ⟨List.ne_nil_of_mem hmemT,
    ⟨transportOpportunity findings, hmemT, transportOpportunity_kind findings⟩, ?_, ?_, ?_⟩
  · intro hnone o ho hk
    rcases (mem_buildOpportunities findings o).mp ho with rfl | ⟨f, _, rfl⟩ | ⟨f, _, rfl⟩
    · exact transportOpportunity_score_of_none findings hnone
    · rw [foodOpportunity_kind] at hk
      exact absurd hk (by decide)
    · rw [careOpportunity_kind] at hk
      exact absurd hk (by decide)
  · constructor
    · rintro ⟨o, ho, hk⟩
      rcases (mem_buildOpportunities findings o).mp ho with rfl | ⟨f, hf, rfl⟩ | ⟨f, _, rfl⟩
      · rw [transportOpportunity_kind] at hk
        exact absurd hk (by decide)
      · unfold bestByKey at hf
        have hp := List.find?_some hf
        simp at hp
        exact ⟨f, List.mem_of_find?_eq_some hf, hp⟩
      · rw [careOpportunity_kind] at hk
        exact absurd hk (by decide)
    · rintro ⟨f, hf, hkey⟩
      have hsome : (findings.find? (fun g => g.key = "food")).isSome :=
        List.find?_isSome.mpr ⟨f, hf, by simp [hkey]⟩
      obtain ⟨f', hf'⟩ := Option.isSome_iff_exists.mp hsome
      exact ⟨foodOpportunity f',
        (mem_buildOpportunities findings _).mpr (Or.inr (Or.inl ⟨f', hf', rfl⟩)),
        foodOpportunity_kind f'⟩
  · constructor
    · rintro ⟨o, ho, hk⟩
      rcases (mem_buildOpportunities findings o).mp ho with rfl | ⟨f, _, rfl⟩ | ⟨f, hf, rfl⟩
      · rw [transportOpportunity_kind] at hk
        exact absurd hk (by decide)
      · rw [foodOpportunity_kind] at hk
        exact absurd hk (by decide)
      · unfold bestByKey at hf
        have hp := List.find?_some hf
        simp at hp
        exact ⟨f, List.mem_of_find?_eq_some hf, hp⟩
    · rintro ⟨f, hf, hkey⟩
      have hsome : (findings.find? (fun g => g.key = "access")).isSome :=
        List.find?_isSome.mpr ⟨f, hf, by simp [hkey]⟩
      obtain ⟨f', hf'⟩ := Option.isSome_iff_exists.mp hsome
      exact ⟨careOpportunity f',
        (mem_buildOpportunities findings _).mpr (Or.inr (Or.inr ⟨f', hf', rfl⟩)),
        careOpportunity_kind f'⟩

/-- C5 witness: the theorem applied at the empty findings list — where
`bestByKey [] "transport" = none` holds definitionally — showing the output
is non-empty and the transportation opportunity scores with the neutral
default responsiveness 55. -/
theorem synthesizer_guarantees_witness :
    buildOpportunities ([] : List Finding) ≠ []
    ∧ (transportOpportunity []).score = scoreOpportunity 90 55 attribution 35 := by
  have h := synthesizer_guarantees []
  exact ⟨h.1, h.2.2.1 rfl (transportOpportunity [])
    ((mem_buildOpportunities [] _).mpr (Or.inl rfl)) rfl⟩

/-- C6: the tier gate is unlocked exactly when some opportunity in the list
scores at least 60, and after a full reset (which empties the opportunities
list) the gate is locked. -/
theorem tier_gate_iff_and_locked_after_reset (opps : List Opportunity) (s : PipelineState) :
    (tier3Unlocked opps = true ↔ ∃ o ∈ opps, (60 : ℤ) ≤ o.score)
    ∧ tier3Unlocked (resetState s).opportunities = false := by
  constructor
  · unfold tier3Unlocked
    rw [List.any_eq_true]
    simp [ge_iff_le]
  · rfl

/-- A concrete opportunity of score 71, used to exercise the tier gate. -/
def gateProbeOpp : Opportunity :=
  { opp := "x", kind := "nmt", tests := "", criterion := "",
    strength := "Moderate", score := 71, scope := "", checklist := "" }

/-- A concrete pipeline state holding one unlocked opportunity. -/
def gateProbeState : PipelineState :=
  { docs := [], evidence := [], findings := [], opportunities := [gateProbeOpp],
    selectedOpp := none, transport := { overall := none, age6574 := none },
    chnaEval := [], model := none }

/-- C6 witness: the gate applied to a singleton list holding an opportunity
of score 71 (unlocked), and to the state produced by resetting a concrete
state (locked). -/
theorem tier_gate_witness :
    tier3Unlocked [gateProbeOpp] = true
    ∧ tier3Unlocked (resetState gateProbeState).opportunities = false := by
  have h := tier_gate_iff_and_locked_after_reset [gateProbeOpp] gateProbeState
  refine ⟨h.1.mpr ⟨gateProbeOpp, List.mem_singleton_self _, by norm_num [gateProbeOpp]⟩, h.2⟩

/-- C7: with an empty findings list the synthesizer produces exactly one
opportunity — the transportation one — whose score is
`round(0.30*90 + 0.30*55 + 0.25*70 + 0.15*(100-35)) = 71` and whose
strength tier is "Moderate"; consequently the tier gate evaluates to
unlocked although no evidence was extracted. -/
theorem empty_findings_unlock_gate :
    (buildOpportunities []).map (fun o => (o.kind, o.score, o.strength))
      = [("nmt", (71 : ℤ), "Moderate")]
    ∧ tier3Unlocked (buildOpportunities []) = true := by
  have hb : buildOpportunities [] = [transportOpportunity []] := rfl
  have hscore : (transportOpportunity ([] : List Finding)).score = 71 := by
    rw [transportOpportunity_score_of_none [] rfl]
    unfold scoreOpportunity attribution jsRound
    rw [show (30/100 * 90 + 30/100 * 55 + 25/100 * 70 + 15/100 * (100 - 35) : ℚ)
          = 283/4 by norm_num]
    rw [round_eq]
    rw [show (283/4 + 1/2 : ℚ) = 285/4 by norm_num]
    rw [Int.floor_eq_iff]
    constructor <;> norm_num
  have hkind : (transportOpportunity ([] : List Finding)).kind = "nmt" :=
    transportOpportunity_kind []
  have hstrength : (transportOpportunity ([] : List Finding)).strength = "Moderate" := by
    have he : (transportOpportunity ([] : List Finding)).strength
        = strengthOf (transportOpportunity ([] : List Finding)).score := rfl
    rw [he, hscore]
    decide
  constructor
  · simp only [hb, List.map_cons, List.map_nil, hkind, hscore, hstrength]
  · rw [hb]
    unfold tier3Unlocked
    simp [hscore]

/-! ## The projection engine's annualization identities -/

/-- C8: in the Tier-3 projection, when `months = 12` the annualized cost
equals the total cost over the horizon; and for positive `months` the
annualized cost does not depend on `months` when both the startup cost and
the fixed monthly cost are zero (the variable-cost term scales linearly
with `months` and is re-annualized exactly). -/
theorem annualized_cost_identities (i : Tier3In) :
    (i.months = 12 → (runTier3 i).annualCost = (runTier3 i).totalCostH)
    ∧ (∀ m₁ m₂ : ℤ, 0 < m₁ → 0 < m₂ → i.startup = 0 → i.fixed = 0 →
        (runTier3 { i with months := m₁ }).annualCost
          = (runTier3 { i with months := m₂ }).annualCost) := by
  have hann : ∀ m : ℤ, (runTier3 { i with months := m }).annualCost
      = (i.startup + i.fixed * (m : ℚ)
         + (runTier3 i).unitsAnnual * ((m : ℚ) / 12) * i.varCost) * (12 / (m : ℚ)) :=
    fun _ => rfl
  constructor
  · intro h
    have ht : (runTier3 i).annualCost = (runTier3 i).totalCostH * (12 / ((i.months : ℤ) : ℚ)) :=
      rfl
    rw [ht, h]
    norm_num
  · intro m₁ m₂ h1 h2 hs hf
    rw [hann m₁, hann m₂, hs, hf]
    have hm1 : ((m₁ : ℚ)) ≠ 0 := Int.cast_ne_zero.mpr (ne_of_gt h1)
    have hm2 : ((m₂ : ℚ)) ≠ 0 := Int.cast_ne_zero.mpr (ne_of_gt h2)
    field_simp
    ring

/-- A concrete Tier-3 scenario with zero startup and fixed costs. -/
def tier3Probe : Tier3In :=
  { months := 12, annual := 1000, basePct := 10, sharePct := 20, redPct := 30,
    covPct := 25, weightFlat := false, senSharePctRaw := 25, benefitPer := 150,
    startup := 0, fixed := 0, varCost := 4, unitsPer := 1,
    transport := { overall := none, age6574 := none } }

/-- C8 witness: the theorem applied at a concrete scenario — at 12 months the
annualized cost equals the horizon cost, and with zero startup/fixed costs
the 6-month and 24-month scenarios annualize to the same cost. -/
theorem annualized_cost_identities_witness :
    (runTier3 tier3Probe).annualCost = (runTier3 tier3Probe).totalCostH
    ∧ (runTier3 { tier3Probe with months := 6 }).annualCost
        = (runTier3 { tier3Probe with months := 24 }).annualCost := by
  have h := annualized_cost_identities tier3Probe
  exact ⟨h.1 rfl, h.2 6 24 (by norm_num) (by norm_num) rfl rfl⟩

/-! ## Finiteness lemmas for the JS number model -/

lemma JSNum.add_num (a b : ℚ) : JSNum.add (.num a) (.num b) = .num (a + b) := rfl

lemma JSNum.mul_num (a b : ℚ) : JSNum.mul (.num a) (.num b) = .num (a * b) := rfl

lemma JSNum.sub_num (a b : ℚ) : JSNum.sub (.num a) (.num b) = .num (a - b) := by
  show JSNum.add (.num a) (.num (-b)) = _
  rw [JSNum.add_num, sub_eq_add_neg]

lemma JSNum.div_num (a b : ℚ) (h : b ≠ 0) : JSNum.div (.num a) (.num b) = .num (a / b) := by
  show (if b = 0 then _ else JSNum.num (a / b)) = _
  rw [if_neg h]

lemma JSNum.jmax_num (a b : ℚ) : JSNum.jmax (.num a) (.num b) = .num (max a b) := rfl

lemma JSNum.jmin_num (a b : ℚ) : JSNum.jmin (.num a) (.num b) = .num (min a b) := rfl

lemma JSNum.jclamp_num (n lo hi : ℚ) :
    JSNum.jclamp (.num n) (.num lo) (.num hi) = .num (max lo (min hi n)) := rfl

lemma JSNum.isFinite_num (a : ℚ) : (JSNum.num a).isFinite = true := rfl

/-- C9 (counterexample): the Tier-3 engine's annualization division by
`months` is not guarded — with `months = 0` (and a startup cost of 5, all
other inputs zero) the annualized cost is `5 * (12/0) = Infinity`, a
non-finite result; and a NaN input (`parseFloat` of a non-empty non-numeric
string) is not treated as zero — with `annual = NaN` the net annual output
is NaN, not a finite number. -/
theorem projection_not_guarded_counterexample :
    (runTier3JS (.num 0) (.num 0) (.num 0) (.num 0) (.num 0) (.num 0) false
        (.num 0) (.num 0) (.num 5) (.num 0) (.num 0) (.num 1)
        { overall := none, age6574 := none }).annualCost = JSNum.inf
    ∧ (runTier3JS (.num 0) (.num 0) (.num 0) (.num 0) (.num 0) (.num 0) false
        (.num 0) (.num 0) (.num 5) (.num 0) (.num 0) (.num 1)
        { overall := none, age6574 := none }).annualCost.isFinite = false
    ∧ (runTier3JS (.num 12) JSNum.nan (.num 0) (.num 0) (.num 0) (.num 0) false
        (.num 0) (.num 0) (.num 0) (.num 0) (.num 0) (.num 1)
        { overall := none, age6574 := none }).netAnnual = JSNum.nan := by
  refine ⟨?_, ?_, ?_⟩ <;>
    norm_num [runTier3JS, JSNum.add, JSNum.mul, JSNum.div, JSNum.sub, JSNum.neg,
      JSNum.jclamp, JSNum.jmax, JSNum.jmin, JSNum.isFinite]

/-- C9 (amended): the engines produce finite numeric outputs on their guarded
domains — the Tier-3 projection maps finite inputs to finite outputs
whenever `months ≠ 0` (its only unguarded division is the annualization by
`months`); the ROI calculator maps finite inputs to finite outputs for every
input, because its two divisions (bank-per-LMI-trip and bank cost-share) are
zero-guarded; and the NaN-coercions `_normRate` and `|| 0` turn a NaN parse
result into 0 on the ROI side. -/
theorem projection_guarded_finiteness :
    (∀ (mq aq bq sq rq cq sspq bpq stq fq vq upq : ℚ) (wf : Bool) (tr : TransportScalars),
      mq ≠ 0 →
      (runTier3JS (.num mq) (.num aq) (.num bq) (.num sq) (.num rq) (.num cq) wf
          (.num sspq) (.num bpq) (.num stq) (.num fq) (.num vq) (.num upq) tr).annualCost.isFinite
          = true
      ∧ (runTier3JS (.num mq) (.num aq) (.num bq) (.num sq) (.num rq) (.num cq) wf
          (.num sspq) (.num bpq) (.num stq) (.num fq) (.num vq) (.num upq) tr).netAnnual.isFinite
          = true
      ∧ (runTier3JS (.num mq) (.num aq) (.num bq) (.num sq) (.num rq) (.num cq) wf
          (.num sspq) (.num bpq) (.num stq) (.num fq) (.num vq) (.num upq) tr).totalCostH.isFinite
          = true
      ∧ (runTier3JS (.num mq) (.num aq) (.num bq) (.num sq) (.num rq) (.num cq) wf
          (.num sspq) (.num bpq) (.num stq) (.num fq) (.num vq) (.num upq) tr).grossAnnual.isFinite
          = true
      ∧ (runTier3JS (.num mq) (.num aq) (.num bq) (.num sq) (.num rq) (.num cq) wf
          (.num sspq) (.num bpq) (.num stq) (.num fq) (.num vq) (.num upq) tr).prevented.isFinite
          = true)
    ∧ (∀ v n s nr mc mi t ov lm aa bk : ℚ,
      (roiCalc (.num v) (.num n) (.num s) (.num nr) (.num mc) (.num mi) (.num t)
          (.num ov) (.num lm) (.num aa) (.num bk)).net_benefit.isFinite = true
      ∧ (roiCalc (.num v) (.num n) (.num s) (.num nr) (.num mc) (.num mi) (.num t)
          (.num ov) (.num lm) (.num aa) (.num bk)).total_program_cost.isFinite = true
      ∧ (roiCalc (.num v) (.num n) (.num s) (.num nr) (.num mc) (.num mi) (.num t)
          (.num ov) (.num lm) (.num aa) (.num bk)).bank_per_lmi.isFinite = true
      ∧ (roiCalc (.num v) (.num n) (.num s) (.num nr) (.num mc) (.num mi) (.num t)
          (.num ov) (.num lm) (.num aa) (.num bk)).bank_share_cost.isFinite = true
      ∧ (roiCalc (.num v) (.num n) (.num s) (.num nr) (.num mc) (.num mi) (.num t)
          (.num ov) (.num lm) (.num aa) (.num bk)).gross_rev.isFinite = true)
    ∧ normRate JSNum.nan = JSNum.num 0
    ∧ orZero JSNum.nan = JSNum.num 0 := by
  refine ⟨?_, ?_, rfl, rfl⟩
  · intro mq aq bq sq rq cq sspq bpq stq fq vq upq wf tr hm
    refine ⟨?_, ?_, ?_, ?_, ?_⟩ <;>
      simp [runTier3JS, JSNum.add_num, JSNum.mul_num, JSNum.sub_num, JSNum.jclamp_num,
        JSNum.div_num, JSNum.isFinite_num, hm, JSNum.sub, JSNum.neg, JSNum.add]
  · intro v n s nr mc mi t ov lm aa bk
    refine ⟨?_, ?_, ?_, ?_, ?_⟩ <;>
      · simp only [roiCalc, JSNum.add_num, JSNum.mul_num, JSNum.sub_num]
        first
          | rfl
          | (split <;> first
              | rfl
              | (next hne =>
                  rw [JSNum.div_num _ _ (fun h0 => hne (congrArg JSNum.num h0))]
                  rfl))

/-- C9 witness: the amended theorem applied at a concrete scenario — 12
months (nonzero, hypothesis discharged) on the Tier-3 side and concrete
rationals on the ROI side — yielding finite annualized cost and finite net
benefit. -/
theorem projection_guarded_finiteness_witness :
    (runTier3JS (.num 12) (.num 1000) (.num 10) (.num 20) (.num 30) (.num 25) false
        (.num 25) (.num 150) (.num 5000) (.num 100) (.num 4) (.num 1)
        { overall := none, age6574 := none }).annualCost.isFinite = true
    ∧ (roiCalc (.num 20000) (.num 1) (.num 1) (.num 150) (.num 40) (.num 1) (.num 25)
        (.num 1) (.num 1) (.num 1) (.num 100000)).net_benefit.isFinite = true := by
  have h := projection_guarded_finiteness
  exact ⟨(h.1 12 1000 10 20 30 25 25 150 5000 100 4 1 false
      { overall := none, age6574 := none } (by norm_num)).1,
    (h.2.1 20000 1 1 150 40 1 25 1 1 1 100000).1⟩

/-! ## Documentation gap evaluator scoring laws -/

/-- C10: for every document, the assessment block scores
`round(present/7 * 100)` and the implementation-plan block scores
`round(present/3 * 100)`, while the comment-solicitation block scores
exactly 100/67/33/0 according to whether 3/2/1/0 of its elements are
present; in particular a document with exactly 2 of the 3 comment elements
present scores 67 (not 66). -/
theorem checklist_scoring_laws (doc : Document) :
    (evalDocForElements doc).chnaScore
      = jsRound ((presentCount (lowerChars (String.intercalate " \n" doc.textByPage))
          CHNA_ELEMENTS : ℚ) / 7 * 100)
    ∧ (evalDocForElements doc).isScore
      = jsRound ((presentCount (lowerChars (String.intercalate " \n" doc.textByPage))
          IS_ELEMENTS : ℚ) / 3 * 100)
    ∧ (evalDocForElements doc).writtenCommentsScore
      = (if presentCount (lowerChars (String.intercalate " \n" doc.textByPage))
             WRITTEN_COMMENT_ELEMENTS = 3 then 100
         else if presentCount (lowerChars (String.intercalate " \n" doc.textByPage))
             WRITTEN_COMMENT_ELEMENTS = 2 then 67
         else if presentCount (lowerChars (String.intercalate " \n" doc.textByPage))
             WRITTEN_COMMENT_ELEMENTS = 1 then 33 else 0)
    ∧ (presentCount (lowerChars (String.intercalate " \n" doc.textByPage))
         WRITTEN_COMMENT_ELEMENTS = 2 →
        (evalDocForElements doc).writtenCommentsScore = 67) := by
  have hchna : (evalDocForElements doc).chnaScore
      = scoreBlock (lowerChars (String.intercalate " \n" doc.textByPage)) CHNA_ELEMENTS := rfl
  have his : (evalDocForElements doc).isScore
      = scoreBlock (lowerChars (String.intercalate " \n" doc.textByPage)) IS_ELEMENTS := rfl
  have hwc : (evalDocForElements doc).writtenCommentsScore
      = (if presentCount (lowerChars (String.intercalate " \n" doc.textByPage))
             WRITTEN_COMMENT_ELEMENTS = 3 then 100
         else if presentCount (lowerChars (String.intercalate " \n" doc.textByPage))
             WRITTEN_COMMENT_ELEMENTS = 2 then 67
         else if presentCount (lowerChars (String.intercalate " \n" doc.textByPage))
             WRITTEN_COMMENT_ELEMENTS = 1 then 33 else 0) := rfl
  refine ⟨?_, ?_, hwc, ?_⟩
  · rw [hchna]
    unfold scoreBlock
    rw [show CHNA_ELEMENTS.length = 7 from rfl]
    norm_num
  · rw [his]
    unfold scoreBlock
    rw [show IS_ELEMENTS.length = 3 from rfl]
    norm_num
  · intro h2
    rw [hwc, h2]
    norm_num

/-- The text of a document excerpt hitting exactly two of the three
comment-solicitation elements (a solicitation phrase and a receipt phrase,
but no taken-into-account phrase). -/
def twoCommentDoc : Document :=
  { name := "excerpt.txt", type := "txt", pages := 1,
    textByPage := ["We solicit input. Comments were received."] }

/-- C10 witness: the theorem applied to a concrete document whose text hits
exactly 2 of the 3 comment-solicitation elements, giving the discrete
score 67. -/
theorem checklist_scoring_laws_witness :
    presentCount (lowerChars (String.intercalate " \n" twoCommentDoc.textByPage))
        WRITTEN_COMMENT_ELEMENTS = 2
    ∧ (evalDocForElements twoCommentDoc).writtenCommentsScore = 67 := by
  have hc : presentCount (lowerChars (String.intercalate " \n" twoCommentDoc.textByPage))
      WRITTEN_COMMENT_ELEMENTS = 2 := by decide
  exact ⟨hc, (checklist_scoring_laws twoCommentDoc).2.2.2 hc⟩

end ChnaCra
